import Mathlib

/-!
# Earthquake ingestion and query pipeline: a shallow embedding

This file embeds the ingestion/upsert pipeline and the read-only query
routes of the BMKG earthquake service (TypeScript sources: the Supabase
variant of `bmkgService.ts`, `database/supabase.ts`,
`routes/earthquakes.ts`) and proves the data-integrity properties stated
for them.

Modelling conventions:
* JavaScript numbers are modelled as `Option ℚ`: `none` is `NaN` (the value
  `parseFloat` returns on non-numeric text), `some q` a finite value.
  Infinities and float rounding do not arise on the feed data and are not
  modelled.
* Stateful or external pieces (wall clock `Date.now()`, the engine's
  `new Date(s).getTime()` parser, the network outcome of a fetch, the
  hosted storage backend's reply) enter as explicit parameters.
* All definitions are executable, so concrete runs of the embedded code
  are settled by `decide`.
-/

/-- A JavaScript number: `none` models `NaN`, `some q` a finite value. -/
abbrev JSNum : Type := Option ℚ

/-- JS `<` against a constant: every comparison with `NaN` is false. -/
def jsLtB (m : JSNum) (q : ℚ) : Bool :=
  match m with
  | none => false
  | some x => decide (x < q)

/-- JS `>=` against a constant: every comparison with `NaN` is false. -/
def jsGeB (m : JSNum) (q : ℚ) : Bool :=
  match m with
  | none => false
  | some x => decide (q ≤ x)

/-- JS `<=` against a constant: every comparison with `NaN` is false. -/
def jsLeB (m : JSNum) (q : ℚ) : Bool :=
  match m with
  | none => false
  | some x => decide (x ≤ q)

/-- `Math.round (q * 10) / 10`, the 1-decimal rounding used by the nearby
route.  `Math.round x = ⌊x + 1/2⌋` (half-up), so
`⌊10q + 1/2⌋ = (20·num q + den q).fdiv (2·den q)`; the division by ten is
kept exact as a rational. -/
def roundTo1 (q : ℚ) : ℚ :=
  mkRat (Int.fdiv (20 * q.num + (q.den : Int)) (2 * (q.den : Int))) 10

/-- 1-decimal rounding lifted to JS numbers; `Math.round NaN` is `NaN`. -/
def jsRoundTo1 : JSNum → JSNum
  | none => none
  | some q => some (roundTo1 q)

/-- Numeric value of a run of decimal digit characters. -/
def digitsVal (l : List Char) : Nat :=
  l.foldl (fun acc c => 10 * acc + (c.toNat - 48)) 0

/-- Decimal digits of the proper fraction `num/den` (`num < den`), most
significant first, stopping at an exact remainder; the fuel bounds the
expansion and is never exhausted on feed data, whose denominators are
powers of ten. -/
def fracDigits : Nat → Nat → Nat → List Char
  | 0, _, _ => []
  | _ + 1, 0, _ => []
  | fuel + 1, num, den =>
    Char.ofNat (48 + num * 10 / den) :: fracDigits fuel (num * 10 % den) den

/-- Decimal rendering of the nonnegative rational `n/d`: integer part,
then a fractional part only when nonzero — matching how JS prints the
plain decimal numbers occurring here (`1.5` ↦ "1.5", `1` ↦ "1"). -/
def decimalString (n d : Nat) : String :=
  Nat.repr (n / d) ++
    (if n % d == 0 then "" else "." ++ String.mk (fracDigits 40 (n % d) d))

/-- The number-to-string coercion a JS template literal applies, for the
values this pipeline produces: `NaN` prints as "NaN", finite decimals by
their exact decimal expansion. -/
def jsNumToString : JSNum → String
  | none => "NaN"
  | some q =>
    if q.num < 0 then "-" ++ decimalString q.num.natAbs q.den
    else decimalString q.num.toNat q.den

/-- ASCII whitespace, the portion of the JS `\s` class the feed data can
contain. -/
def jsWhitespace (c : Char) : Bool :=
  c == ' ' || c == '\t' || c == '\n' || c == '\r' || c == '\x0b' || c == '\x0c'

/-- The character class of the sanitising regex `[:\s]`. -/
def isColonOrWs (c : Char) : Bool :=
  c == ':' || jsWhitespace c

/-- `s.replace(/[:\s]/g, "_")`: every colon and whitespace character
becomes an underscore. -/
def sanitizeId (s : String) : String :=
  String.mk (s.data.map (fun c => if isColonOrWs c then '_' else c))

/-- JS `s.split(",")` on the character list: the comma-separated fields,
in order, empty fields preserved. -/
def splitOnComma : List Char → List (List Char)
  | [] => [[]]
  | c :: rest =>
    if c == ',' then [] :: splitOnComma rest
    else
      match splitOnComma rest with
      | [] => [[c]]
      | h :: t => (c :: h) :: t

/-- Does `pat` occur at the head of the character list? -/
def startsWithPat : List Char → List Char → Bool
  | [], _ => true
  | _ :: _, [] => false
  | p :: ps, c :: cs => p == c && startsWithPat ps cs

/-- JS `s.replace(pat, "")` with a plain-string pattern: only the first
occurrence of `pat` is removed. -/
def removeFirstOcc (pat : List Char) : List Char → List Char
  | [] => []
  | c :: cs =>
    if startsWithPat pat (c :: cs) then (c :: cs).drop pat.length
    else c :: removeFirstOcc pat cs

/-- JS `parseFloat` for the decimal notation the feeds use: optional
leading whitespace and sign, then digits with an optional fractional
part; any longer garbage suffix is ignored, and a string with no leading
digits at all yields `NaN`.  (Exponent notation and `Infinity` never occur
in the feed strings and are not modelled.)  The value is built as a single
scaled integer, `mkRat mantissa (10 ^ fracLen)`. -/
def parseFloat (s : String) : JSNum :=
  let l := s.data.dropWhile jsWhitespace
  let signed : Bool × List Char :=
    match l with
    | '-' :: r => (true, r)
    | '+' :: r => (false, r)
    | _ => (false, l)
  let ip := signed.2.takeWhile Char.isDigit
  let rest := signed.2.dropWhile Char.isDigit
  let fp :=
    match rest with
    | '.' :: r => r.takeWhile Char.isDigit
    | _ => []
  if ip.isEmpty && fp.isEmpty then none
  else
    let mant : Nat := digitsVal ip * 10 ^ fp.length + digitsVal fp
    some (mkRat (if signed.1 then -(mant : Int) else (mant : Int)) (10 ^ fp.length))

/-- Raw feed entry, the `BMKGEarthquake` interface of `bmkgService.ts`:
all fields are source strings; `Dirasakan` and `Shakemap` are optional. -/
structure BMKGEarthquake where
  Tanggal : String
  Jam : String
  DateTime : String
  Coordinates : String
  Lintang : String
  Bujur : String
  Magnitude : String
  Kedalaman : String
  Wilayah : String
  Potensi : String
  Dirasakan : Option String := none
  Shakemap : Option String := none
deriving DecidableEq, Repr

/-- Canonical stored record, the `SupabaseEarthquake` interface of
`database/supabase.ts`.  Numeric fields hold whatever `parseFloat` and
`Date.getTime` produced, `NaN` included; `created_at` is the ingestion
wall-clock time. -/
structure SupabaseEarthquake where
  id : String
  datetime : String
  timestamp : JSNum
  magnitude : JSNum
  depth : JSNum
  latitude : JSNum
  longitude : JSNum
  region : String
  tsunami_potential : Option String
  felt_status : Option String
  shakemap_url : Option String
  created_at : ℚ
deriving DecidableEq, Repr

/-- JS `s || null`: the empty string is falsy and becomes `null`. -/
def jsOrNull (s : String) : Option String :=
  if s = "" then none else some s

/-- JS `x || null` for an optional string field. -/
def jsOptOrNull : Option String → Option String
  | none => none
  | some s => jsOrNull s

/-- Fixed feed origin of `bmkgService.ts`. -/
def BMKG_BASE_URL : String := "https://data.bmkg.go.id"

/-- `data.Coordinates.split(",")` as a list of strings. -/
def coordsOf (data : BMKGEarthquake) : List String :=
  (splitOnComma data.Coordinates.data).map String.mk

/-- `parseFloat(coords[0])`: the parsed latitude.  Indexing past the end
of the split yields JS `undefined`, which `parseFloat` turns into `NaN`. -/
def parsedLatitude (data : BMKGEarthquake) : JSNum :=
  match (coordsOf data).get? 0 with
  | some s => parseFloat s
  | none => none

/-- `parseFloat(coords[1])`: the parsed longitude, `NaN` when the
coordinate string has no comma. -/
def parsedLongitude (data : BMKGEarthquake) : JSNum :=
  match (coordsOf data).get? 1 with
  | some s => parseFloat s
  | none => none

/-- The canonical record `parseAndInsertEarthquake` (Supabase variant of
`bmkgService.ts`) builds and then upserts.  `parseDate` is the engine's
`new Date(s).getTime()` oracle and `now` the `Date.now()` wall clock, both
passed explicitly.  Note the body performs no validation: a failed numeric
parse leaves `NaN` in the corresponding field and the record is still
produced. -/
def parseAndInsertEarthquake (parseDate : String → JSNum) (now : ℚ)
    (data : BMKGEarthquake) : SupabaseEarthquake :=
  let latitude := parsedLatitude data
  let longitude := parsedLongitude data
  { id := sanitizeId (data.DateTime ++ "_" ++ jsNumToString latitude ++ "_" ++
      jsNumToString longitude)
    datetime := data.Tanggal ++ " " ++ data.Jam
    timestamp := parseDate data.DateTime
    magnitude := parseFloat data.Magnitude
    depth := parseFloat (String.mk (removeFirstOcc (" km".data) data.Kedalaman.data))
    latitude := latitude
    longitude := longitude
    region := data.Wilayah
    tsunami_potential := jsOrNull data.Potensi
    felt_status := jsOptOrNull data.Dirasakan
    shakemap_url :=
      match data.Shakemap with
      | none => none
      | some s => if s = "" then none else some (BMKG_BASE_URL ++ "/" ++ s)
    created_at := now }

/-- The id as the specification sentence literally reads: the plain
concatenation of source datetime, parsed latitude and parsed longitude
(no separator), then colon/whitespace replacement.  Stated only to compare
against the id the code derives. -/
def specConcatId (data : BMKGEarthquake) : String :=
  sanitizeId (data.DateTime ++ jsNumToString (parsedLatitude data) ++
    jsNumToString (parsedLongitude data))

/-- Modelled from the spec: the hosted storage backend itself is not part
of this repository's sources; the spec fixes its contract as
insert-or-replace keyed by `id` with full-record replacement.  The store
is the list of live rows (each id at most once once reached via
`storeUpsert`). -/
abbrev Store : Type := List SupabaseEarthquake

/-- Point lookup by exact id. -/
def storeGet (s : Store) (id : String) : Option SupabaseEarthquake :=
  s.find? (fun r => r.id == id)

/-- Insert-or-replace keyed by `id`: the new row replaces any row sharing
its id. -/
def storeUpsert (r : SupabaseEarthquake) (s : Store) : Store :=
  r :: s.filter (fun x => !(x.id == r.id))

/-- `upsertEarthquake` (`database/supabase.ts`): no client configured or a
backend error leaves the store unchanged and reports `false` (errors are
caught, never propagated); otherwise the row is upserted and `true`
reported. -/
def upsertEarthquake (configured : Bool) (err : Option String)
    (r : SupabaseEarthquake) (s : Store) : Store × Bool :=
  if !configured then (s, false)
  else
    match err with
    | some _ => (s, false)
    | none => (storeUpsert r s, true)

/-- Outcome of one batch write request against the storage backend. -/
structure BatchWriteOutcome where
  /-- The error of the reply, or the caught exception; the source treats
  both identically. -/
  error : Option String
  /-- Modelled from the spec: the number of rows the backend actually
  persisted — the spec allows a non-atomic backend that persists part of
  the batch before failing.  The source never observes this value. -/
  written : Nat
deriving DecidableEq, Repr

/-- `upsertEarthquakes` (`database/supabase.ts`): the returned count is
`0` when unconfigured, on an empty batch or on any backend error
(caught, never propagated), and the full batch length otherwise. -/
def upsertEarthquakes (configured : Bool) (rows : List SupabaseEarthquake)
    (outcome : BatchWriteOutcome) : Nat :=
  if !configured || rows.isEmpty then 0
  else
    match outcome.error with
    | some _ => 0
    | none => rows.length

/-- The `Infogempa.gempa` payload: the latest-event feed carries a single
entry, the list feeds an array. -/
inductive BMKGPayload where
  | single (entry : BMKGEarthquake)
  | multiple (entries : List BMKGEarthquake)
deriving DecidableEq, Repr

/-- Resolved outcome of one feed fetch: a payload, or any fetch failure
(network error, timeout, malformed body), which surfaces inside the
feed's `try` block. -/
inductive FeedFetchResult where
  | ok (payload : BMKGPayload)
  | fetchError (message : String)
deriving DecidableEq, Repr

/-- Body of `fetchLatestEarthquake`'s `try` block: a fetch failure is a
thrown exception; a single (non-array) payload is normalized, an array
payload is skipped. -/
def fetchLatestAttempt (parseDate : String → JSNum) (now : ℚ)
    (result : FeedFetchResult) : Except String (List SupabaseEarthquake) :=
  match result with
  | .fetchError msg => .error msg
  | .ok (.single e) => .ok [parseAndInsertEarthquake parseDate now e]
  | .ok (.multiple _) => .ok []

/-- Body of `fetchM5Earthquakes`'s `try` block: every entry of an array
payload is normalized in order; a single payload is skipped. -/
def fetchListAttempt (parseDate : String → JSNum) (now : ℚ)
    (result : FeedFetchResult) : Except String (List SupabaseEarthquake) :=
  match result with
  | .fetchError msg => .error msg
  | .ok (.single _) => .ok []
  | .ok (.multiple es) => .ok (es.map (parseAndInsertEarthquake parseDate now))

/-- `fetchLatestEarthquake`: the records the latest-event feed contributes
this cycle.  The catch-all handler turns any fetch failure into an empty
contribution. -/
def fetchLatestEarthquake (parseDate : String → JSNum) (now : ℚ)
    (result : FeedFetchResult) : List SupabaseEarthquake :=
  match fetchLatestAttempt parseDate now result with
  | .ok l => l
  | .error _ => []

/-- `fetchM5Earthquakes`: the records the M5+ list feed contributes. -/
def fetchM5Earthquakes (parseDate : String → JSNum) (now : ℚ)
    (result : FeedFetchResult) : List SupabaseEarthquake :=
  match fetchListAttempt parseDate now result with
  | .ok l => l
  | .error _ => []

/-- `fetchFeltEarthquakes`: the records the felt list feed contributes. -/
def fetchFeltEarthquakes (parseDate : String → JSNum) (now : ℚ)
    (result : FeedFetchResult) : List SupabaseEarthquake :=
  match fetchListAttempt parseDate now result with
  | .ok l => l
  | .error _ => []

/-- `fetchAllEarthquakes`: one ingestion cycle, `Promise.all` over the
three feeds.  The cycle's records are the three independent contributions
joined once every branch has resolved. -/
def fetchAllEarthquakes (parseDate : String → JSNum) (now : ℚ)
    (latest m5 felt : FeedFetchResult) : List SupabaseEarthquake :=
  fetchLatestEarthquake parseDate now latest ++
    fetchM5Earthquakes parseDate now m5 ++
    fetchFeltEarthquakes parseDate now felt

/-- Sort key for the `order("timestamp", desc)` query: stored timestamps
are epoch-millis numbers; the `getD` default is unobservable on the
numeric timestamps the claims quantify over. -/
def tsKey (r : SupabaseEarthquake) : ℚ :=
  r.timestamp.getD 0

/-- "Earlier in descending-timestamp order": `a` precedes `b` when `a`'s
timestamp is at least `b`'s. -/
def tsDescR (a b : SupabaseEarthquake) : Prop :=
  tsKey b ≤ tsKey a

instance : DecidableRel tsDescR :=
  fun a b => inferInstanceAs (Decidable (tsKey b ≤ tsKey a))

instance : IsTotal SupabaseEarthquake tsDescR :=
  ⟨fun a b => le_total (tsKey b) (tsKey a)⟩

instance : IsTrans SupabaseEarthquake tsDescR :=
  ⟨fun _ _ _ h1 h2 => le_trans h2 h1⟩

/-- The backend's `order("timestamp", { ascending: false })`, modelled by
a stable sort on the timestamp key. -/
def sortByTimestampDesc (l : List SupabaseEarthquake) : List SupabaseEarthquake :=
  List.insertionSort tsDescR l

/-- The optional `gte`/`lte` magnitude filters of `GET /earthquakes`: an
absent bound always passes; a present bound compares JS-style (so a `NaN`
magnitude never passes a present bound). -/
def magnitudeMatches (minM maxM : Option ℚ) (m : JSNum) : Bool :=
  (match minM with
    | none => true
    | some q => jsGeB m q) &&
  (match maxM with
    | none => true
    | some q => jsLeB m q)

/-- Body of a `GET /earthquakes` response: the page and the `pagination`
object. -/
structure ListEarthquakesResponse where
  data : List SupabaseEarthquake
  total : Nat
  limit : Nat
  offset : Nat
deriving DecidableEq, Repr

/-- `GET /earthquakes` (`routes/earthquakes.ts`): filter by the optional
magnitude bounds, order by timestamp descending, slice
`range(offset, offset + limit - 1)`, and report the exact count of all
matching rows as `pagination.total`.  `limit` defaults to 50 and `offset`
to 0 when absent. -/
def routerGetEarthquakes (store : Store) (limitParam offsetParam : Option Nat)
    (minM maxM : Option ℚ) : ListEarthquakesResponse :=
  let limit := limitParam.getD 50
  let offset := offsetParam.getD 0
  let matching := store.filter (fun r => magnitudeMatches minM maxM r.magnitude)
  { data := ((sortByTimestampDesc matching).drop offset).take limit
    total := matching.length
    limit := limit
    offset := offset }

/-- The distance computation of `utils/distance.ts`, which is outside the
embedded sources: the nearby route is parametric in it.  Arguments are
query latitude/longitude then record latitude/longitude (the latter may be
`NaN`, in which case any numeric formula yields `NaN`). -/
abbrev DistanceFn : Type := ℚ → ℚ → JSNum → JSNum → JSNum

/-- One element of a nearby response: the stored record together with its
`distance` annotation (already rounded to one decimal, as the route
stores it). -/
structure NearbyEarthquake where
  record : SupabaseEarthquake
  distance : JSNum
deriving DecidableEq, Repr

/-- Sort key of the nearby comparator `(a, b) => a.distance - b.distance`;
the route filters `NaN` distances out before sorting, so the `getD`
default is unobservable. -/
def distKey (a : NearbyEarthquake) : ℚ :=
  a.distance.getD 0

/-- "At most as far": the ascending-by-distance order of the nearby
response. -/
def distLeR (a b : NearbyEarthquake) : Prop :=
  distKey a ≤ distKey b

instance : DecidableRel distLeR :=
  fun a b => inferInstanceAs (Decidable (distKey a ≤ distKey b))

instance : IsTotal NearbyEarthquake distLeR :=
  ⟨fun a b => le_total (distKey a) (distKey b)⟩

instance : IsTrans NearbyEarthquake distLeR :=
  ⟨fun _ _ _ h1 h2 => le_trans h1 h2⟩

/-- The annotation step of the nearby route: attach the computed distance,
rounded to one decimal. -/
def annotateDistance (dist : DistanceFn) (userLat userLng : ℚ)
    (row : SupabaseEarthquake) : NearbyEarthquake :=
  { record := row
    distance := jsRoundTo1 (dist userLat userLng row.latitude row.longitude) }

/-- `GET /earthquakes/nearby` (`routes/earthquakes.ts`): fetch every
stored record (timestamp-descending), annotate each with its rounded
distance from the query point, keep those whose (rounded) distance is at
most the radius, and sort ascending by that distance.  `radius` defaults
to 100 km. -/
def routerGetNearby (dist : DistanceFn) (store : Store) (userLat userLng : ℚ)
    (radiusParam : Option ℚ) : List NearbyEarthquake :=
  let radiusKm := radiusParam.getD 100
  List.insertionSort distLeR
    (((sortByTimestampDesc store).map (annotateDistance dist userLat userLng)).filter
      (fun a => jsLeB a.distance radiusKm))

/-- The four-bucket magnitude histogram of `GET /earthquakes/stats`. -/
structure MagnitudeBuckets where
  lt5 : Nat
  m5to6 : Nat
  m6to7 : Nat
  m7plus : Nat
deriving DecidableEq, Repr

/-- Index of the bucket the stats scan assigns a magnitude to: the chain
`< 5`, `>= 5 && < 6`, `>= 6 && < 7`, else `7+`.  JS comparisons with
`NaN` are false, so a `NaN` magnitude falls through to the last bucket. -/
def bucketIndex (m : JSNum) : Nat :=
  if jsLtB m 5 then 0
  else if jsGeB m 5 && jsLtB m 6 then 1
  else if jsGeB m 6 && jsLtB m 7 then 2
  else 3

/-- One step of the stats scan: increment the bucket the magnitude falls
into. -/
def addToBucket (b : MagnitudeBuckets) (m : JSNum) : MagnitudeBuckets :=
  if jsLtB m 5 then { b with lt5 := b.lt5 + 1 }
  else if jsGeB m 5 && jsLtB m 6 then { b with m5to6 := b.m5to6 + 1 }
  else if jsGeB m 6 && jsLtB m 7 then { b with m6to7 := b.m6to7 + 1 }
  else { b with m7plus := b.m7plus + 1 }

/-- The histogram of a list of magnitudes, by the stats route's full
scan. -/
def byMagnitude (mags : List JSNum) : MagnitudeBuckets :=
  mags.foldl addToBucket ⟨0, 0, 0, 0⟩

/-- The stats route's histogram over the whole store. -/
def statsBuckets (store : Store) : MagnitudeBuckets :=
  byMagnitude (store.map (fun r => r.magnitude))

/-- Total of the four bucket counts. -/
def bucketSum (b : MagnitudeBuckets) : Nat :=
  b.lt5 + b.m5to6 + b.m6to7 + b.m7plus

/-! ### Concrete inputs used by witnesses and counterexamples -/

/-- A fixed date-parsing oracle for concrete runs (its value is irrelevant
to every property below). -/
def dateOracle0 : String → JSNum :=
  fun _ => none

/-- A representative raw feed entry. -/
def sampleEntry : BMKGEarthquake :=
  { Tanggal := "06 Okt 2025"
    Jam := "08:15:21 WIB"
    DateTime := "2025-10-06T01:15:21+00:00"
    Coordinates := "-3.25,120.5"
    Lintang := "3.25 LS"
    Bujur := "120.50 BT"
    Magnitude := "5.2"
    Kedalaman := "10 km"
    Wilayah := "Sulawesi Tengah"
    Potensi := "Tidak berpotensi tsunami"
    Dirasakan := some ("III Palu")
    Shakemap := some ("20251006011521.mml") }

/-- The same physical event reported with different non-key fields (other
region text, felt status and magnitude string), sharing the source
datetime and coordinate string. -/
def sampleEntryAlt : BMKGEarthquake :=
  { sampleEntry with
    Magnitude := "5.3"
    Wilayah := "Teluk Tomini"
    Potensi := ""
    Dirasakan := none
    Shakemap := none }

/-- A raw entry whose magnitude string does not parse. -/
def badMagnitudeEntry : BMKGEarthquake :=
  { sampleEntry with Magnitude := "abc" }

/-- A second well-formed raw entry, sibling of `badMagnitudeEntry` in a
batch. -/
def goodEntryB : BMKGEarthquake :=
  { sampleEntry with
    DateTime := "2025-10-06T02:20:00+00:00"
    Coordinates := "-1.5,119.25"
    Magnitude := "6.1" }

/-- A stored record with the given id, timestamp and magnitude; the other
fields are fixed representative values. -/
def mkStoredRecord (id : String) (ts : ℚ) (mag : ℚ) : SupabaseEarthquake :=
  { id := id
    datetime := "06 Okt 2025 08:15:21 WIB"
    timestamp := some ts
    magnitude := some mag
    depth := some 10
    latitude := some (mkRat (-13) 4)
    longitude := some (mkRat 241 2)
    region := "Sulawesi Tengah"
    tsunami_potential := none
    felt_status := none
    shakemap_url := none
    created_at := 1759710000000 }

/-- Concrete stored records. -/
def recA : SupabaseEarthquake := mkStoredRecord "evt-a" 4 (mkRat 52 10)

/-- A record sharing `recA`'s id but carrying different field values: a
later report of the same event. -/
def recA2 : SupabaseEarthquake :=
  { mkStoredRecord "evt-a" 4 (mkRat 55 10) with region := "Teluk Tomini" }

/-- A second stored record with its own id. -/
def recB : SupabaseEarthquake := mkStoredRecord "evt-b" 3 (mkRat 61 10)

/-- Third and fourth stored records, for the four-record pagination
scenario. -/
def recC : SupabaseEarthquake := mkStoredRecord "evt-c" 2 (mkRat 45 10)

/-- Fourth stored record. -/
def recD : SupabaseEarthquake := mkStoredRecord "evt-d" 1 (mkRat 75 10)

/-- The four-record store of the pagination scenario, deliberately not in
timestamp order. -/
def fourRecordStore : Store := [recC, recA, recD, recB]

/-- A batch reply in which the backend failed the request after having
persisted one row. -/
def failedBatchOutcome : BatchWriteOutcome :=
  { error := some ("duplicate key value violates unique constraint")
    written := 1 }

/-- A distance function that computes 100.04 km for every pair of points:
the raw distance exceeds a 100 km radius by less than 0.05 km. -/
def dist100p04 : DistanceFn :=
  fun _ _ _ _ => some (mkRat 10004 100)

/-- The single stored record of the rounded-boundary scenarios. -/
def boundaryRec : SupabaseEarthquake := mkStoredRecord "evt-boundary" 5 (mkRat 48 10)

/-- A second copy of the boundary scenario's record under another id, so
the two rounded-boundary claims rest on distinct concrete stores. -/
def boundaryRec2 : SupabaseEarthquake := mkStoredRecord "evt-boundary-2" 6 (mkRat 51 10)

/-! ### Claim theorems -/

/-- Claim C1 (amended): the derived id is a deterministic function of the
source event datetime and the parsed latitude and longitude only — the
date oracle and wall clock do not enter it, and two raw entries sharing
those key fields share the id — and it equals the concatenation of source
datetime, parsed latitude and parsed longitude joined by underscore
separators, with every colon and whitespace character replaced by an
underscore. -/
theorem c1_id_deterministic (pd1 pd2 : String → JSNum) (n1 n2 : ℚ)
    (d1 d2 : BMKGEarthquake) (hdt : d1.DateTime = d2.DateTime)
    (hlat : parsedLatitude d1 = parsedLatitude d2)
    (hlon : parsedLongitude d1 = parsedLongitude d2) :
    (parseAndInsertEarthquake pd1 n1 d1).id =
      (parseAndInsertEarthquake pd2 n2 d2).id ∧
    (parseAndInsertEarthquake pd1 n1 d1).id =
      sanitizeId (d1.DateTime ++ "_" ++ jsNumToString (parsedLatitude d1) ++ "_" ++
        jsNumToString (parsedLongitude d1)) := by
  constructor
  · simp only [parseAndInsertEarthquake, hdt, hlat, hlon]
  · rfl

/-- Witness for C1: the sample entry and a sibling entry differing only in
non-key fields (magnitude string, region, tsunami/felt text) are
ingested under different wall clocks and date oracles, yet derive the same
id, and the id follows the underscore-joined sanitized format. -/
theorem c1_id_deterministic_witness :
    (parseAndInsertEarthquake dateOracle0 0 sampleEntry).id =
      (parseAndInsertEarthquake (fun _ => some 0) 1759710000000 sampleEntryAlt).id ∧
    (parseAndInsertEarthquake dateOracle0 0 sampleEntry).id =
      sanitizeId (sampleEntry.DateTime ++ "_" ++
        jsNumToString (parsedLatitude sampleEntry) ++ "_" ++
        jsNumToString (parsedLongitude sampleEntry)) :=
  c1_id_deterministic dateOracle0 (fun _ => some 0) 0 1759710000000 sampleEntry
    sampleEntryAlt (by decide) (by decide) (by decide)

/-- Counterexample for C1 as stated: the id is not the plain (separator-free)
concatenation of datetime, latitude and longitude after sanitizing — the
code joins the three parts with underscores. -/
theorem c1_concat_counterexample :
    (parseAndInsertEarthquake dateOracle0 0 sampleEntry).id ≠ specConcatId sampleEntry ∧
    (parseAndInsertEarthquake dateOracle0 0 sampleEntry).id =
      "2025-10-06T01_15_21+00_00_-3.25_120.5" ∧
    specConcatId sampleEntry = "2025-10-06T01_15_21+00_00-3.25120.5" := by
  refine ⟨by decide, by decide, by decide⟩

/-- Claim C2: single-record upsert is idempotent — the second application
of the same record changes nothing, observably (`storeGet`) and on the
whole store — and a later record under the same id fully replaces the
earlier one.  The last conjunct restates idempotence through the
`upsertEarthquake` wrapper on a configured, error-free write. -/
theorem c2_upsert_idempotent (r r2 : SupabaseEarthquake) (s : Store)
    (hid : r2.id = r.id) :
    storeUpsert r (storeUpsert r s) = storeUpsert r s ∧
    (∀ key, storeGet (storeUpsert r (storeUpsert r s)) key =
      storeGet (storeUpsert r s) key) ∧
    storeGet (storeUpsert r2 (storeUpsert r s)) r.id = some r2 ∧
    (upsertEarthquake true none r (upsertEarthquake true none r s).1).1 =
      (upsertEarthquake true none r s).1 := by
  have hidem : storeUpsert r (storeUpsert r s) = storeUpsert r s := by
    simp [storeUpsert, List.filter_filter]
  refine ⟨hidem, fun key => by rw [hidem], ?_, ?_⟩
  · simp [storeGet, storeUpsert, List.find?_cons_of_pos, hid]
  · simpa [upsertEarthquake] using hidem

/-- Witness for C2: double upsert of a concrete record equals single
upsert, and a later record under the same id replaces it. -/
theorem c2_upsert_idempotent_witness :
    storeUpsert recA (storeUpsert recA [recB]) = storeUpsert recA [recB] ∧
    (∀ key, storeGet (storeUpsert recA (storeUpsert recA [recB])) key =
      storeGet (storeUpsert recA [recB]) key) ∧
    storeGet (storeUpsert recA2 (storeUpsert recA [recB])) recA.id = some recA2 ∧
    (upsertEarthquake true none recA (upsertEarthquake true none recA [recB]).1).1 =
      (upsertEarthquake true none recA [recB]).1 :=
  c2_upsert_idempotent recA recA2 [recB] (by decide)

/-- Claim C3 is contradicted by the code: a raw entry whose magnitude
string fails to parse still yields a full record — with `NaN` magnitude —
which is then upserted, and a 3-entry batch with one malformed magnitude
normalizes to 3 records, not 2.  (`parseFloat` never throws; the
`try/catch` around the body only guards genuinely thrown exceptions.) -/
theorem c3_nan_record_inserted :
    (parseAndInsertEarthquake dateOracle0 0 badMagnitudeEntry).magnitude = none ∧
    (([sampleEntry, badMagnitudeEntry, goodEntryB]).map
      (parseAndInsertEarthquake dateOracle0 0)).length = 3 ∧
    (upsertEarthquake true none
      (parseAndInsertEarthquake dateOracle0 0 badMagnitudeEntry) []).1 =
      [parseAndInsertEarthquake dateOracle0 0 badMagnitudeEntry] ∧
    (upsertEarthquake true none
      (parseAndInsertEarthquake dateOracle0 0 badMagnitudeEntry) []).2 = true := by
  refine ⟨by decide, rfl, rfl, rfl⟩

/-- Claim C4 (amended): the batch upsert reports all-or-nothing, never a
partial count — `0` on any backend error (caught, not propagated), on an
unconfigured client and on an empty batch, and the full batch length on
success — and the reported count never exceeds the batch size. -/
theorem c4_batch_count (configured : Bool) (rows : List SupabaseEarthquake)
    (outcome : BatchWriteOutcome) :
    (outcome.error.isSome = true → upsertEarthquakes configured rows outcome = 0) ∧
    (configured = false → upsertEarthquakes configured rows outcome = 0) ∧
    (outcome.error = none → configured = true → rows ≠ [] →
      upsertEarthquakes configured rows outcome = rows.length) ∧
    upsertEarthquakes configured rows outcome ≤ rows.length := by
  obtain ⟨err, written⟩ := outcome
  cases configured <;> cases err <;> cases rows <;>
    simp [upsertEarthquakes]

/-- Witness for C4: a configured, error-free two-record batch reports
count 2; an erroring batch reports 0. -/
theorem c4_batch_count_witness :
    upsertEarthquakes true [recA, recB] { error := none, written := 2 } = 2 ∧
    upsertEarthquakes true [recA, recB] failedBatchOutcome = 0 := by
  have h1 := (c4_batch_count true [recA, recB]
    { error := none, written := 2 }).2.2.1 rfl rfl (by decide)
  have h2 := (c4_batch_count true [recA, recB] failedBatchOutcome).1 rfl
  exact ⟨by simpa using h1, h2⟩

/-- Counterexample for C4 as stated: when the backend fails a two-record
batch after persisting one row, the function returns `0`, not the number
of records actually persisted — the count is all-or-nothing, never
partial. -/
theorem c4_partial_count_counterexample :
    upsertEarthquakes true [recA, recB] failedBatchOutcome = 0 ∧
    failedBatchOutcome.written = 1 ∧
    upsertEarthquakes true [recA, recB] failedBatchOutcome ≠
      failedBatchOutcome.written := by
  refine ⟨rfl, rfl, by decide⟩

/-- Claim C5: one ingestion cycle is the join of the three feeds'
independent contributions — it completes with all three branches resolved,
whatever each outcome — and a fetch failure of any one feed contributes
zero records while leaving the sibling feeds' contributions untouched.
(Each feed's catch-all handler makes its contribution total, so the cycle
never rejects.) -/
theorem c5_fanout_join (pd : String → JSNum) (now : ℚ) (msg : String)
    (latest m5 felt : FeedFetchResult) :
    fetchAllEarthquakes pd now latest m5 felt =
      fetchLatestEarthquake pd now latest ++ fetchM5Earthquakes pd now m5 ++
        fetchFeltEarthquakes pd now felt ∧
    fetchAllEarthquakes pd now (.fetchError msg) m5 felt =
      fetchM5Earthquakes pd now m5 ++ fetchFeltEarthquakes pd now felt ∧
    fetchAllEarthquakes pd now latest (.fetchError msg) felt =
      fetchLatestEarthquake pd now latest ++ fetchFeltEarthquakes pd now felt ∧
    fetchAllEarthquakes pd now latest m5 (.fetchError msg) =
      fetchLatestEarthquake pd now latest ++ fetchM5Earthquakes pd now m5 := by
  refine ⟨rfl, ?_, ?_, ?_⟩
  · simp [fetchAllEarthquakes, fetchLatestEarthquake, fetchLatestAttempt]
  · simp [fetchAllEarthquakes, fetchM5Earthquakes, fetchListAttempt]
  · simp [fetchAllEarthquakes, fetchFeltEarthquakes, fetchListAttempt]

/-- Claim C8: the stats histogram of the magnitudes 3.0, 5.0, 5.9, 6.0 and
7.5 is one record below 5, two in 5–6, one in 6–7 and one in 7+. -/
theorem c8_magnitude_buckets :
    byMagnitude [some 3, some 5, some (mkRat 59 10), some 6, some (mkRat 15 2)] =
      { lt5 := 1, m5to6 := 2, m6to7 := 1, m7plus := 1 } := by
  decide

/-- Each scan step increments exactly one bucket. -/
theorem bucketSum_addToBucket (b : MagnitudeBuckets) (m : JSNum) :
    bucketSum (addToBucket b m) = bucketSum b + 1 := by
  unfold addToBucket bucketSum
  split_ifs <;> simp <;> omega

/-- The scan preserves the count invariant from any starting
accumulator. -/
theorem bucketSum_foldl (mags : List JSNum) (b : MagnitudeBuckets) :
    bucketSum (mags.foldl addToBucket b) = bucketSum b + mags.length := by
  induction mags generalizing b with
  | nil => simp
  | cons m rest ih =>
    rw [List.foldl_cons, ih, bucketSum_addToBucket, List.length_cons]
    omega

/-- Claim C10: the histogram partitions the scanned records — the four
bucket counts sum to the store size — and any magnitude failing all three
lower-bucket comparisons lands in the 7+ bucket; in particular a `NaN`
magnitude (e.g. the one a malformed magnitude string parses to) does. -/
theorem c10_bucket_partition (store : Store) (m : JSNum)
    (h1 : jsLtB m 5 = false) (h2 : (jsGeB m 5 && jsLtB m 6) = false)
    (h3 : (jsGeB m 6 && jsLtB m 7) = false) :
    bucketSum (statsBuckets store) = store.length ∧
    bucketIndex m = 3 ∧
    (∀ b, addToBucket b m = { b with m7plus := b.m7plus + 1 }) ∧
    bucketIndex none = 3 ∧
    bucketIndex (parseFloat badMagnitudeEntry.Magnitude) = 3 := by
  refine ⟨?_, ?_, ?_, rfl, by decide⟩
  · have h := bucketSum_foldl (store.map (fun r => r.magnitude)) ⟨0, 0, 0, 0⟩
    simpa [statsBuckets, byMagnitude, bucketSum] using h
  · simp [bucketIndex, h1, h2, h3]
  · intro b
    simp [addToBucket, h1, h2, h3]

/-- Witness for C10: the four-record store's bucket counts sum to 4, and a
`NaN` magnitude is counted in the 7+ bucket. -/
theorem c10_bucket_partition_witness :
    bucketSum (statsBuckets fourRecordStore) = fourRecordStore.length ∧
    bucketIndex none = 3 ∧
    (∀ b, addToBucket b none = { b with m7plus := b.m7plus + 1 }) :=
  ⟨(c10_bucket_partition fourRecordStore none rfl rfl rfl).1,
    (c10_bucket_partition fourRecordStore none rfl rfl rfl).2.2.2.1,
    (c10_bucket_partition fourRecordStore none rfl rfl rfl).2.2.1⟩

/-- Claim C6 (amended): the nearby route returns exactly the stored
records whose distance, after rounding to one decimal, is at most the
radius (boundary inclusive on the rounded value), each annotated with that
rounded distance, sorted ascending by it. -/
theorem c6_nearby_rounded_filter (dist : DistanceFn) (store : Store)
    (uLat uLng radius : ℚ) :
    List.Perm (routerGetNearby dist store uLat uLng (some radius))
      ((store.map (annotateDistance dist uLat uLng)).filter
        (fun a => jsLeB a.distance radius)) ∧
    List.Sorted distLeR (routerGetNearby dist store uLat uLng (some radius)) ∧
    ∀ a ∈ routerGetNearby dist store uLat uLng (some radius),
      a.distance = jsRoundTo1 (dist uLat uLng a.record.latitude a.record.longitude) ∧
      jsLeB a.distance radius = true := by
  have hub : routerGetNearby dist store uLat uLng (some radius) =
      List.insertionSort distLeR
        (((sortByTimestampDesc store).map (annotateDistance dist uLat uLng)).filter
          (fun a => jsLeB a.distance radius)) := rfl
  have hLperm :
      List.Perm
        (((sortByTimestampDesc store).map (annotateDistance dist uLat uLng)).filter
          (fun a => jsLeB a.distance radius))
        ((store.map (annotateDistance dist uLat uLng)).filter
          (fun a => jsLeB a.distance radius)) :=
    ((List.perm_insertionSort tsDescR store).map
      (annotateDistance dist uLat uLng)).filter _
  refine ⟨?_, ?_, ?_⟩
  · rw [hub]
    exact (List.perm_insertionSort distLeR _).trans hLperm
  · rw [hub]
    exact List.sorted_insertionSort distLeR _
  · intro a ha
    rw [hub, List.mem_insertionSort] at ha
    obtain ⟨hmem, hpred⟩ := List.mem_filter.mp ha
    obtain ⟨row, _, hrfl⟩ := List.mem_map.mp hmem
    subst hrfl
    exact ⟨rfl, hpred⟩

/-- Witness for C6: on a one-record store the returned list is the rounded
filter of the store, sorted, and the returned element carries the rounded
distance annotation within the radius. -/
theorem c6_nearby_rounded_filter_witness :
    List.Perm (routerGetNearby dist100p04 [boundaryRec] 0 0 (some 100))
      (([boundaryRec].map (annotateDistance dist100p04 0 0)).filter
        (fun a => jsLeB a.distance 100)) ∧
    List.Sorted distLeR (routerGetNearby dist100p04 [boundaryRec] 0 0 (some 100)) ∧
    ((annotateDistance dist100p04 0 0 boundaryRec).distance =
      jsRoundTo1 (dist100p04 0 0 boundaryRec.latitude boundaryRec.longitude) ∧
      jsLeB (annotateDistance dist100p04 0 0 boundaryRec).distance 100 = true) :=
  ⟨(c6_nearby_rounded_filter dist100p04 [boundaryRec] 0 0 100).1,
    (c6_nearby_rounded_filter dist100p04 [boundaryRec] 0 0 100).2.1,
    (c6_nearby_rounded_filter dist100p04 [boundaryRec] 0 0 100).2.2
      (annotateDistance dist100p04 0 0 boundaryRec) (by decide)⟩

/-- Counterexample for C6 as stated: a record whose raw computed distance
is 100.04 km — strictly beyond the 100 km radius — is nonetheless
returned, because inclusion is decided on the rounded distance. -/
theorem c6_raw_distance_counterexample :
    (routerGetNearby dist100p04 [boundaryRec] 0 0 (some 100)).map
      (fun a => a.record) = [boundaryRec] ∧
    ¬ ((dist100p04 0 0 boundaryRec.latitude boundaryRec.longitude).getD 0 ≤
      (100 : ℚ)) := by
  refine ⟨by decide, by decide⟩

/-- Claim C9: nearby inclusion is decided on the rounded distance — a
record at raw distance 100.04 km (over the 100 km radius by less than
0.05 km) is included, annotated with the rounded distance 100.0. -/
theorem c9_rounded_boundary_inclusion :
    (100 : ℚ) < (dist100p04 0 0 boundaryRec2.latitude boundaryRec2.longitude).getD 0 ∧
    (dist100p04 0 0 boundaryRec2.latitude boundaryRec2.longitude).getD 0 <
      mkRat 10005 100 ∧
    (routerGetNearby dist100p04 [boundaryRec2] 0 0 (some 100)).map
      (fun a => a.record) = [boundaryRec2] ∧
    (routerGetNearby dist100p04 [boundaryRec2] 0 0 (some 100)).map
      (fun a => a.distance) = [some 100] := by
  refine ⟨by decide, by decide, by decide, by decide⟩

/-- Claim C7: `GET /earthquakes` defaults to `limit = 50`, `offset = 0`;
and over any 4-record store with pairwise-distinct timestamps the pages
`limit=2&offset=0` and `limit=2&offset=2` concatenate to the full
descending-timestamp ordering of the store — a permutation of the store
(no record missing), sorted descending, with no record in both pages —
while `pagination.total` is 4 in both responses. -/
theorem c7_pagination (store : Store) :
    (∀ minM maxM : Option ℚ, routerGetEarthquakes store none none minM maxM =
      routerGetEarthquakes store (some 50) (some 0) minM maxM) ∧
    (store.length = 4 →
      store.Pairwise (fun a b => a.timestamp ≠ b.timestamp) →
      (routerGetEarthquakes store (some 2) (some 0) none none).data ++
          (routerGetEarthquakes store (some 2) (some 2) none none).data =
        sortByTimestampDesc store ∧
      List.Perm
        ((routerGetEarthquakes store (some 2) (some 0) none none).data ++
          (routerGetEarthquakes store (some 2) (some 2) none none).data) store ∧
      List.Sorted tsDescR
        ((routerGetEarthquakes store (some 2) (some 0) none none).data ++
          (routerGetEarthquakes store (some 2) (some 2) none none).data) ∧
      (routerGetEarthquakes store (some 2) (some 0) none none).total = 4 ∧
      (routerGetEarthquakes store (some 2) (some 2) none none).total = 4 ∧
      ∀ r ∈ (routerGetEarthquakes store (some 2) (some 0) none none).data,
        r ∉ (routerGetEarthquakes store (some 2) (some 2) none none).data) := by
  constructor
  · intro minM maxM
    rfl
  intro h4 hdist
  have hfilter : store.filter (fun r => magnitudeMatches none none r.magnitude) =
      store := by
    simp [magnitudeMatches]
  have hperm : List.Perm (sortByTimestampDesc store) store :=
    List.perm_insertionSort tsDescR store
  have hlen : (sortByTimestampDesc store).length = 4 := by
    rw [hperm.length_eq, h4]
  have hdata1 : (routerGetEarthquakes store (some 2) (some 0) none none).data =
      (sortByTimestampDesc store).take 2 := by
    simp [routerGetEarthquakes, hfilter]
  have hdata2 : (routerGetEarthquakes store (some 2) (some 2) none none).data =
      (sortByTimestampDesc store).drop 2 := by
    show ((sortByTimestampDesc
      (store.filter (fun r => magnitudeMatches none none r.magnitude))).drop 2).take 2 =
        (sortByTimestampDesc store).drop 2
    rw [hfilter]
    apply List.take_of_length_le
    simp [hlen]
  have happend : (routerGetEarthquakes store (some 2) (some 0) none none).data ++
      (routerGetEarthquakes store (some 2) (some 2) none none).data =
      sortByTimestampDesc store := by
    rw [hdata1, hdata2, List.take_append_drop]
  have hnodup : (sortByTimestampDesc store).Nodup := by
    have hp : (sortByTimestampDesc store).Pairwise
        (fun a b => a.timestamp ≠ b.timestamp) :=
      (hperm.pairwise_iff (fun h => h.symm)).mpr hdist
    exact hp.imp fun h => fun heq => h (by rw [heq])
  have hdisj : List.Disjoint
      ((routerGetEarthquakes store (some 2) (some 0) none none).data)
      ((routerGetEarthquakes store (some 2) (some 2) none none).data) := by
    apply List.disjoint_of_nodup_append
    rw [happend]
    exact hnodup
  refine ⟨happend, ?_, ?_, ?_, ?_, fun r hr hmem => hdisj hr hmem⟩
  · rw [happend]
    exact hperm
  · rw [happend]
    exact List.sorted_insertionSort tsDescR store
  · show (store.filter (fun r => magnitudeMatches none none r.magnitude)).length = 4
    rw [hfilter, h4]
  · show (store.filter (fun r => magnitudeMatches none none r.magnitude)).length = 4
    rw [hfilter, h4]

/-- Witness for C7: the four-record store with distinct timestamps,
paginated two-by-two, reconstructs its descending-timestamp ordering with
totals of 4. -/
theorem c7_pagination_witness :
    (∀ minM maxM : Option ℚ,
      routerGetEarthquakes fourRecordStore none none minM maxM =
        routerGetEarthquakes fourRecordStore (some 50) (some 0) minM maxM) ∧
    ((routerGetEarthquakes fourRecordStore (some 2) (some 0) none none).data ++
        (routerGetEarthquakes fourRecordStore (some 2) (some 2) none none).data =
      sortByTimestampDesc fourRecordStore ∧
    List.Perm
      ((routerGetEarthquakes fourRecordStore (some 2) (some 0) none none).data ++
        (routerGetEarthquakes fourRecordStore (some 2) (some 2) none none).data)
      fourRecordStore ∧
    List.Sorted tsDescR
      ((routerGetEarthquakes fourRecordStore (some 2) (some 0) none none).data ++
        (routerGetEarthquakes fourRecordStore (some 2) (some 2) none none).data) ∧
    (routerGetEarthquakes fourRecordStore (some 2) (some 0) none none).total = 4 ∧
    (routerGetEarthquakes fourRecordStore (some 2) (some 2) none none).total = 4 ∧
    ∀ r ∈ (routerGetEarthquakes fourRecordStore (some 2) (some 0) none none).data,
      r ∉ (routerGetEarthquakes fourRecordStore (some 2) (some 2) none none).data) :=
  ⟨(c7_pagination fourRecordStore).1,
    (c7_pagination fourRecordStore).2 (by decide) (by decide)⟩
